import Mathlib

/-!
Verification of the spreadsheet-to-relational reconciliation engine of
`gutolog-dash` (`src/merge/`).  The Python sources are shallowly embedded:

* a sheet is a 2-D grid of heterogeneous cells (`Cell`); a workbook is a
  named list of grids;
* pandas `DataFrame`s produced by the extractors are embedded as lists of
  rows keyed by `(vehicle_type, km_inicial, km_final)`, with the remaining
  columns held as an ordered association list of optional values
  (`none` = pandas `NaN`);
* Python floats are modelled as rationals (no claim depends on rounding);
* fallible code (`pd.read_excel` of a missing sheet, `IndexError` /
  `KeyError` / `ValueError` escaping a `try`) is embedded in `Except`.
-/

namespace GutologDash

/-- A spreadsheet cell: blank/`NaN`, a text cell, or a numeric cell.
Numeric cells are modelled as rationals. -/
inductive Cell where
  | empty
  | str (s : String)
  | num (q : Rat)
deriving DecidableEq, Repr

/-- One sheet: a list of rows of cells.  pandas pads ragged rows with `NaN`
up to the sheet width, which the access function reproduces. -/
abbrev Grid := List (List Cell)

/-- A workbook: sheets with their names, in workbook order. -/
abbrev Wb := List (String × Grid)

/-- `xl[name]`: the first sheet with the given name. -/
def findSheet (wb : Wb) (name : String) : Option Grid :=
  (wb.find? (fun p => p.1 = name)).map Prod.snd

/-- `df.iloc[r, c]` on a `header=None` frame: out-of-range positions inside
the rectangular hull are `NaN`-padded.  (Callers guard `r`/`c` against the
frame shape exactly where the Python code does.) -/
def cellAt (g : Grid) (r c : Nat) : Cell :=
  match g.get? r with
  | none => Cell.empty
  | some row => (row.get? c).getD Cell.empty

/-- pandas column count of a `header=None` frame: the rectangular width. -/
def gridWidth (g : Grid) : Nat :=
  (g.map List.length).foldr max 0

/-- `pd.notna` on a cell. -/
def cellNotna (c : Cell) : Bool :=
  match c with
  | Cell.empty => false
  | _ => true

/-- The decimal fragment of Python `float(str)`: optional sign, digits,
optional fractional part (exponents/`inf`/`nan` literals are not needed by
any claim).  Returns `none` where Python raises `ValueError`. -/
def parseRat? (s : String) : Option Rat :=
  let t := s.trim.data
  let (sign, digits) : Rat × List Char :=
    match t with
    | '-' :: rest => ((-1 : Rat), rest)
    | '+' :: rest => ((1 : Rat), rest)
    | _ => ((1 : Rat), t)
  let intPart := digits.takeWhile (fun c => c.isDigit)
  let rest := digits.dropWhile (fun c => c.isDigit)
  let (fracPart, tail) : List Char × List Char :=
    match rest with
    | '.' :: r => (r.takeWhile (fun c => c.isDigit), r.dropWhile (fun c => c.isDigit))
    | _ => ([], rest)
  if tail ≠ [] then none
  else if intPart = [] ∧ fracPart = [] then none
  else
    let iv : Nat := intPart.foldl (fun a c => a * 10 + (c.toNat - 48)) 0
    let fv : Nat := fracPart.foldl (fun a c => a * 10 + (c.toNat - 48)) 0
    let den : Nat := 10 ^ fracPart.length
    some (sign * ((iv : Rat) + (fv : Rat) / (den : Rat)))

/-- `float(cell)`: blank cells are `NaN` floats (`.ok none`), numeric cells
succeed, text cells parse or raise `ValueError` (`.error`). -/
def pyFloat (c : Cell) : Except String (Option Rat) :=
  match c with
  | Cell.empty => .ok none
  | Cell.num q => .ok (some q)
  | Cell.str s =>
    match parseRat? s with
    | some q => .ok (some q)
    | none => .error "ValueError"

/-- The `_num` helper shared by `read_calculo_frete.py` and
`read_cotacao.py`: `None` when the cell is `NaN` or unparseable, else the
float. -/
def pyNum (c : Cell) : Option Rat :=
  match c with
  | Cell.empty => none
  | Cell.num q => some q
  | Cell.str s => parseRat? s

/-- A value stored in a DataFrame column. -/
inductive Val where
  | str (s : String)
  | num (q : Rat)
  | bool (b : Bool)
deriving DecidableEq, Repr

/-- The merge key `(vehicle_type, km_inicial, km_final)`.  The km bounds are
optional: an extractor can emit rows with `NaN` bounds, and pandas matches
`NaN` keys to each other in both `merge` and `drop_duplicates`. -/
structure Key where
  vt : String
  ki : Option Rat
  kf : Option Rat
deriving DecidableEq, Repr

/-- A fact row: its merge key plus the non-key columns in column order
(`none` = `NaN`). -/
structure Row where
  key : Key
  cells : List (String × Option Val)
deriving DecidableEq, Repr

abbrev Table := List Row

/-- A one-row context record: field name to optional value, in column
order. -/
abbrev Ctx := List (String × Option Val)

/-- Value of a (non-key) column in a row: `none` both when the column is
absent from the row and when it holds `NaN` — exactly how pandas presents a
missing column of a ragged union. -/
def getCell (r : Row) (c : String) : Option Val :=
  match r.cells.find? (fun p => p.1 = c) with
  | none => none
  | some p => p.2

/-- Replace the value of column `c` (as pandas `.loc` assignment on an
existing column does). -/
def setCell (r : Row) (c : String) (v : Option Val) : Row :=
  { r with cells := r.cells.map (fun p => if p.1 = c then (p.1, v) else p) }

/-- The non-key column names of a table, first occurrence order. -/
def tblCols (t : Table) : List String :=
  (t.flatMap (fun r => r.cells.map Prod.fst)).dedup

/-- `df[col] = True`: append a boolean source-marker column. -/
def addMarker (name : String) (t : Table) : Table :=
  t.map (fun r => { r with cells := r.cells ++ [(name, some (Val.bool true))] })

/-- One step of `main.merge(df, on=key, how="outer", suffixes=("", "_dup"))`
followed by dropping the `_dup` columns.  Effect of the drop: a right-hand
column whose name already exists on the left is discarded entirely, so
right-only rows show `NaN` in every shared-name column.  Row order (pandas
`sort=False`): left rows in order, each expanded by its right matches in
right order, then unmatched right rows in right order. -/
def outerJoin (L R : Table) : Table :=
  let rightOnly := (tblCols R).filter (fun c => ¬ c ∈ tblCols L)
  let leftCols := tblCols L
  let matched :=
    L.flatMap (fun l =>
      match R.filter (fun r => r.key = l.key) with
      | [] => [{ l with cells := l.cells ++ rightOnly.map (fun c => (c, (none : Option Val))) }]
      | rs => rs.map (fun r =>
          { l with cells := l.cells ++ r.cells.filter (fun p => p.1 ∈ rightOnly) }))
  let rightRest :=
    (R.filter (fun r => ¬ L.any (fun l => l.key = r.key))).map (fun r =>
      { r with cells :=
          leftCols.map (fun c => (c, (none : Option Val)))
            ++ r.cells.filter (fun p => p.1 ∈ rightOnly) })
  matched ++ rightRest

/-- `merge_all.py` lines 73-78: where `km_total` is `NaN` but both bounds
are present, set it to `km_final - km_inicial + 1`.  Note the source checks
only presence of the bounds, not their order. -/
def fillKmTotal (t : Table) : Table :=
  if "km_total" ∈ tblCols t then
    t.map (fun r =>
      if getCell r "km_total" = none ∧ r.key.ki ≠ none ∧ r.key.kf ≠ none then
        setCell r "km_total"
          (some (Val.num ((r.key.kf.getD 0) - (r.key.ki.getD 0) + 1)))
      else r)
  else t

/-- `drop_duplicates(subset=key, keep="first")`: keep each key's first
occurrence, in order. -/
def dedupGo (seen : List Key) : Table → Table
  | [] => []
  | r :: rest =>
    if r.key ∈ seen then dedupGo seen rest
    else r :: dedupGo (r.key :: seen) rest

def dedupKeepFirst (t : Table) : Table := dedupGo [] t

/-- The list of main tables `merge_all` collects: the fixed-cost table is
appended whenever its file is present; the other two only when non-empty.
Each gets its source-marker column first. -/
def mainsOf (bv : Option (Table × Ctx)) (cf : Option Table)
    (cot : Option (Table × Ctx)) : List Table :=
  (match bv with
   | some (t, _) => [addMarker "_source_bv" t]
   | none => []) ++
  (match cf with
   | some t => if t = [] then [] else [addMarker "_source_cf" t]
   | none => []) ++
  (match cot with
   | some (t, _) => if t = [] then [] else [addMarker "_source_cot" t]
   | none => [])

/-- The merged main table just before deduplication: sequential outer joins
then the `km_total` backfill. -/
def preMergeTable (bv : Option (Table × Ctx)) (cf : Option Table)
    (cot : Option (Table × Ctx)) : Table :=
  match mainsOf bv cf cot with
  | [] => []
  | m :: rest => fillKmTotal (rest.foldl outerJoin m)

/-- `merge_all.py` lines 86-95: `pd.concat(context_dfs, axis=1)` keeps every
column of every one-row context record, duplicates included, and the
"first non-null per column" loop then evaluates
`context_flat[c].isna().all()`.  When a column name is duplicated that
expression is a `Series`, and `bool(Series)` raises `ValueError`; when all
names are distinct the concatenated single row is returned unchanged (each
column already holds its only value). -/
def combineContext (ctxs : List Ctx) : Except String Ctx :=
  let all := ctxs.flatMap id
  if (all.map Prod.fst).Nodup then .ok all
  else .error "ValueError: The truth value of a Series is ambiguous"

/-- The context records `merge_all` collects: the fixed-cost context
whenever its file is present, then the quotation context whenever its file
is present. -/
def ctxsOf (bv : Option (Table × Ctx)) (cot : Option (Table × Ctx)) : List Ctx :=
  (match bv with | some (_, c) => [c] | none => []) ++
  (match cot with | some (_, c) => [c] | none => [])

/-- `merge_all`, abstracted over the three extractor outputs (`none` =
source file absent).  Returns `.error` when the Python function would let an
exception escape. -/
def merge_all (bv : Option (Table × Ctx)) (cf : Option Table)
    (cot : Option (Table × Ctx)) : Except String (Table × Ctx) :=
  if mainsOf bv cf cot = [] then .ok ([], [])
  else
    match combineContext (ctxsOf bv cot) with
    | .error e => .error e
    | .ok ctx => .ok (dedupKeepFirst (preMergeTable bv cf cot), ctx)

/-! ## Vehicle normalizer (spec-modelled)

`src/merge/vehicle_mapping.py` (`CANONICAL_VEHICLES`, `TO_CANONICAL`,
`normalize_vehicle`) is imported by every extractor but is not among the
provided sources. -/

/-- `SHEET_TO_VEHICLE` from `read_calculo_frete.py`: per-vehicle sheet name
to canonical vehicle type. -/
def SHEET_TO_VEHICLE : List (String × String) :=
  [("FIORINO_CS", "FIORINO - CARGA SECA"),
   ("FIORINO_CS_AG", "FIORINO - CARGA SECA"),
   ("VAN_CS", "VAN - CARGA SECA"),
   ("LEVE_CS", "LEVE - CARGA SECA"),
   ("TOCO_CS", "TOCO - CARGA SECA"),
   ("TRUCK_CS", "TRUCK - CARGA SECA"),
   ("CTA5_CS", "CARRETA 5 EIXOS - CARGA SECA"),
   ("CTA6_CS", "CARRETA 6 EIXOS - CARGA SECA"),
   ("VAN_CR", "VAN - REFRIGERADA"),
   ("LEVE_CR", "LEVE - REFRIGERADO"),
   ("TOCO_CR", "TOCO - REFRIGERADO"),
   ("TRUCK_CR", "TRUCK - REFRIGERADO"),
   ("CTA5_CR", "CARRETA 5 EIXOS - REFRIGERADA"),
   ("CTA6_CR", "CARRETA 6 EIXOS - REFRIGERADA")]

/-- Modelled from the spec: `CANONICAL_VEHICLES` of the missing
`vehicle_mapping.py` — "a fixed enumerated set" of canonical vehicle types
(spec section 3).  Taken as the distinct canonical values visible in the
sources (`SHEET_TO_VEHICLE`), which include the spec's own examples. -/
def CANONICAL_VEHICLES : List String :=
  (SHEET_TO_VEHICLE.map Prod.snd).dedup

/-- Modelled from the spec: `normalize_vehicle` of the missing
`vehicle_mapping.py` (spec section 4.1) — case/whitespace tolerant exact
match against the canonical set, then the sheet-name-style alias table,
else absent. -/
def normalize_vehicle (s : String) : Option String :=
  if s.trim.toUpper ∈ CANONICAL_VEHICLES then some s.trim.toUpper
  else (SHEET_TO_VEHICLE.find? (fun p => p.1 = s.trim.toUpper)).map Prod.snd

/-! ## `read_calculo_frete.py` -/

/-- Lines 59-66: `float` of the cells at positional columns 9, 10, 11 in one
`try` catching `TypeError`/`ValueError`/`IndexError`, then `continue` when
either bound is `NaN`.  `km_total` itself is *not* `NaN`-checked and may
come out absent. -/
def kmTriple (g : Grid) (r : Nat) : Option (Rat × Rat × Option Rat) :=
  match pyFloat (cellAt g r 9), pyFloat (cellAt g r 10), pyFloat (cellAt g r 11) with
  | .ok oi, .ok of, .ok ot =>
    match oi, of with
    | some ki, some kf => some (ki, kf, ot)
    | _, _ => none
  | _, _, _ => none

/-- Lines 67-78: the row dictionary built for one data row of a per-vehicle
sheet. -/
def mkCfRow (vehicle : String) (ki kf : Rat) (kt : Option Rat)
    (g : Grid) (r : Nat) : Row :=
  { key := ⟨vehicle, some ki, some kf⟩
    cells :=
      [("km_total", kt.map Val.num),
       ("valor_dia_util_calculo", (pyNum (cellAt g r 6)).map Val.num),
       ("mensal_calculo", (pyNum (cellAt g r 4)).map Val.num),
       ("por_km_calculo", (pyNum (cellAt g r 5)).map Val.num),
       ("frete_peso_entrega", (pyNum (cellAt g r 18)).map Val.num),
       ("frete_peso_retorno", (pyNum (cellAt g r 19)).map Val.num),
       ("frete_peso_viagem", (pyNum (cellAt g r 20)).map Val.num)] }

/-- Lines 42-79: one per-vehicle sheet of the primary layout.  Sheets with
fewer than 2 rows or 12 columns are skipped.  A data row whose KM triple
parses, on a sheet narrower than 21 columns, reaches
`row.iloc[18]` outside any `try` and raises `IndexError`. -/
def rcfPrimarySheet (g : Grid) (vehicle : String) (acc : List Row) :
    Except String (List Row) :=
  if g.length < 2 ∨ gridWidth g < 12 then .ok acc
  else
    (List.range (g.length - 1)).foldlM
      (fun rows i =>
        match kmTriple g (i + 1) with
        | none => .ok rows
        | some (ki, kf, kt) =>
          if gridWidth g < 21 then .error "IndexError"
          else .ok (rows ++ [mkCfRow vehicle ki kf kt g (i + 1)]))
      acc

/-- Lines 38-44: iterate the workbook's sheets in order, keeping those whose
name is in `SHEET_TO_VEHICLE`. -/
def rcfPrimary (wb : Wb) : Except String (List Row) :=
  wb.foldlM
    (fun rows sheet =>
      match SHEET_TO_VEHICLE.find? (fun p => p.1 = sheet.1) with
      | none => .ok rows
      | some p => rcfPrimarySheet sheet.2 p.2 rows)
    []

/-- The `while c + 2 < df_geral.shape[1]` loop starting at `c = 4` with step
3: the visited group-start columns. -/
def groupStarts (w : Nat) : List Nat :=
  (List.range w).filter (fun c => 4 ≤ c ∧ (c - 4) % 3 = 0 ∧ c + 2 < w)

/-- Lines 83-114: the consolidated `FRETE PESO - GERAL` fallback layout.
Data rows from row 4; KM bounds in columns 1-3 (`float` in a `try` with no
`NaN` check); vehicle labels at row 2, column `c+1` of each triplet;
unresolvable labels are skipped silently. -/
def rcfFallback (g : Grid) : List Row :=
  if 4 ≤ g.length ∧ 5 ≤ gridWidth g then
    (List.range (g.length - 4)).flatMap (fun i =>
      match pyFloat (cellAt g (i + 4) 1), pyFloat (cellAt g (i + 4) 2),
          pyFloat (cellAt g (i + 4) 3) with
      | .ok oi, .ok of, .ok ot =>
        (groupStarts (gridWidth g)).filterMap (fun c =>
          match cellAt g 2 (c + 1) with
          | Cell.str s =>
            match normalize_vehicle s.trim with
            | some v =>
              some { key := ⟨v, oi, of⟩
                     cells :=
                       [("km_total", ot.map Val.num),
                        ("valor_dia_util_calculo", (pyNum (cellAt g (i + 4) c)).map Val.num),
                        ("frete_peso_entrega", (pyNum (cellAt g (i + 4) c)).map Val.num),
                        ("frete_peso_retorno", (pyNum (cellAt g (i + 4) (c + 1))).map Val.num),
                        ("frete_peso_viagem", (pyNum (cellAt g (i + 4) (c + 2))).map Val.num)] }
            | none => none
          | _ => none)
      | _, _, _ => [])
  else []

/-- `read_calculo_frete`: the primary per-vehicle-sheet layout; when it
yields zero rows, the consolidated fallback sheet (whose absence, read
unconditionally at line 83, raises). -/
def read_calculo_frete (wb : Wb) : Except String Table :=
  match rcfPrimary wb with
  | .error e => .error e
  | .ok primary =>
    if primary = [] then
      match findSheet wb "FRETE PESO - GERAL" with
      | none => .error "ValueError: no sheet FRETE PESO - GERAL"
      | some g => .ok (rcfFallback g)
    else .ok primary

/-! ## `read_base_valores.py` -/

/-- The single-character substitutions of `_slug`
(`read_base_valores.py` lines 188-199), one source character at a time.
The source applies `str.replace` sequentially in the order
`" "→"_"`, `"%"→"pct"`, `"/"→"_"`, `"("→""`, `")"→""`, `"-"→"_"`,
`":"→""`, `"."→""`; since no replacement string contains a character that a
later `replace` rewrites, the sequential chain equals this one-pass
character map. -/
def slugCharList (c : Char) : List Char :=
  if c = ' ' then ['_']
  else if c = '%' then ['p', 'c', 't']
  else if c = '/' then ['_']
  else if c = '(' then []
  else if c = ')' then []
  else if c = '-' then ['_']
  else if c = ':' then []
  else if c = '.' then []
  else [c]

/-- `_slug`: lowercase (modelled on the ASCII range of `str.lower`), apply
the substitutions, then `[:50]` (truncation by code points, as in Python).
Deterministic by construction (a pure function of the label). -/
def _slug (s : String) : String :=
  ⟨((s.data.map Char.toLower).flatMap slugCharList).take 50⟩

/-- `str(cell)` where the code stringifies a label cell.  The string form
of a numeric label is modelled as the rational's canonical string (Python
prints the float; no claim depends on the exact digits). -/
def pyStr (c : Cell) : String :=
  match c with
  | Cell.str s => s
  | Cell.num q => toString q
  | Cell.empty => "nan"

/-- Truncation toward zero: `int(float(...))`. -/
def ratTrunc (q : Rat) : Int :=
  if q < 0 then -(Rat.floor (-q)) else Rat.floor q

/-- `int(float(cell))` under `except (ValueError, TypeError)`: a blank cell
is a `NaN` float and `int(nan)` raises `ValueError` (caught → `none`); an
unparseable string raises in `float` (caught → `none`). -/
def pyIntFloat (c : Cell) : Option Int :=
  match c with
  | Cell.empty => none
  | Cell.num q => some (ratTrunc q)
  | Cell.str s => (parseRat? s).map ratTrunc

/-- `dias_uteis or 24`: Python `or` treats `None` and `0` as falsy. -/
def pyOrInt (d : Option Int) (dflt : Int) : Int :=
  match d with
  | none => dflt
  | some v => if v = 0 then dflt else v

/-- Lines 23-30: scan the `VIAGEM` sheet for the first row whose column-0
cell is exactly `"DIAS ÚTEIS:"` and parse its column-1 neighbour.  On a
single-column sheet `row.iloc[1]` raises `IndexError` outside the `try`. -/
def bvDias (g : Grid) : Except String (Option Int) :=
  match (List.range g.length).find? (fun r => cellAt g r 0 = Cell.str "DIAS ÚTEIS:") with
  | none => .ok none
  | some r =>
    if gridWidth g < 2 then .error "IndexError"
    else .ok (pyIntFloat (cellAt g r 1))

/-- Lines 34-43: the cost-category sheets, in iteration order. -/
def cost_sheets : List String :=
  ["PATRIMÔNIO + CAPITAL", "TAXAS E IMPOSTOS", "LICENÇAS E CERTIFICAÇÕES",
   "GERENCIAMENTO DE RISCO", "SEGURO - FROTA", "MANUTENÇÃO+PNEUS",
   "MÃO DE OBRA + %", "COMBUSTÍVEL"]

/-- Lines 44-53: metric-name prefix per cost sheet.  (The source pipes the
prefix through `.replace(" ", "_").lower()`, the identity on these
constants.) -/
def sheetPrefixTable : List (String × String) :=
  [("PATRIMÔNIO + CAPITAL", "patrimonio_"),
   ("TAXAS E IMPOSTOS", "taxas_"),
   ("LICENÇAS E CERTIFICAÇÕES", "licencas_"),
   ("GERENCIAMENTO DE RISCO", "risco_"),
   ("SEGURO - FROTA", "seguro_"),
   ("MANUTENÇÃO+PNEUS", "manutencao_"),
   ("MÃO DE OBRA + %", "mao_obra_"),
   ("COMBUSTÍVEL", "combustivel_")]

/-- Line 80: `float(val) if pd.notna(val) and str(val).strip() != "" else
None`, with `ValueError`/`TypeError` giving `None`. -/
def bvNum (c : Cell) : Option Rat :=
  match c with
  | Cell.empty => none
  | Cell.num q => some q
  | Cell.str s => if s.trim = "" then none else parseRat? s

/-- Lines 56-86: unpivot the cost sheets into `(vehicle, metric, value)`
triples in append order.  Row 0 holds vehicle labels from column 1 (kept
when the stripped text is canonical); rows 1+ hold a metric label in
column 0 and one value per vehicle column. -/
def bvMetrics (wb : Wb) : List (String × String × Rat) :=
  cost_sheets.flatMap (fun sheet =>
    match findSheet wb sheet with
    | none => []
    | some g =>
      if g.length = 0 ∨ gridWidth g < 2 then []
      else
        let vehicleCols := (List.range (gridWidth g)).filterMap (fun c =>
          if 1 ≤ c then
            match cellAt g 0 c with
            | Cell.str v => if v.trim ∈ CANONICAL_VEHICLES then some (c, v.trim) else none
            | _ => none
          else none)
        if vehicleCols = [] then []
        else
          let pre := ((sheetPrefixTable.find? (fun p => p.1 = sheet)).map Prod.snd).getD ""
          (List.range (g.length - 1)).flatMap (fun i =>
            let r := i + 1
            let lbl := cellAt g r 0
            if cellNotna lbl ∧ (pyStr lbl).trim ≠ "" then
              let metricName := pre ++ _slug (pyStr lbl)
              vehicleCols.filterMap (fun vc =>
                (bvNum (cellAt g r vc.1)).map (fun q => (vc.2, metricName, q)))
            else []))

/-- Insertion into a sorted duplicate-free list (pandas sorts pivot axes). -/
def sortedInsert (x : String) : List String → List String
  | [] => [x]
  | y :: ys =>
    if x = y then y :: ys
    else if x < y then x :: y :: ys
    else y :: sortedInsert x ys

def sortedDedup (l : List String) : List String :=
  l.foldl (fun acc x => sortedInsert x acc) []

/-- The metric column names of `vehicle_pivot` (sorted, as
`pivot_table` sorts its columns); empty when no metrics were found. -/
def bvMetricNames (ms : List (String × String × Rat)) : List String :=
  sortedDedup (ms.map (fun m => m.2.1))

/-- Lines 89-95: `pivot_table(index=vehicle, columns=metric, values=value,
aggfunc="first")` — one row per vehicle (sorted), one column per metric
(sorted), first-seen value, `NaN` where a combination is absent; when no
metrics exist, one row per canonical vehicle with no metric columns. -/
def bvPivot (ms : List (String × String × Rat)) :
    List (String × List (String × Option Val)) :=
  if ms = [] then CANONICAL_VEHICLES.map (fun v => (v, []))
  else
    (sortedDedup (ms.map Prod.fst)).map (fun v =>
      (v, (bvMetricNames ms).map (fun m =>
        (m, (ms.find? (fun x => x.1 = v ∧ x.2.1 = m)).map (fun x => Val.num x.2.2)))))

/-- The metric cells a `RELAÇÃO` row receives from the left join with
`vehicle_pivot` (line 177): the pivot row's cells, or `NaN` in every pivot
metric column when the vehicle has no pivot row. -/
def bvPivotCells (ms : List (String × String × Rat)) (v : String) :
    List (String × Option Val) :=
  match (bvPivot ms).find? (fun p => p.1 = v) with
  | some p => p.2
  | none => (bvMetricNames ms).map (fun m => (m, (none : Option Val)))

/-- One entry of `rows_rel` (lines 119-172): km bounds may be `NaN` on the
line-147 fallback path, which performs no `isna` check. -/
structure RelRow where
  vt : String
  ki : Option Rat
  kf : Option Rat
  kt : Option Rat
  pct : Rat
deriving DecidableEq, Repr

/-- `header=0` column labels of a sheet: string cells give string labels;
numeric or blank cells give labels (`5.0`, `Unnamed: k`) that never equal
any string the code compares against, modelled as `none`. -/
def headerLabels (g : Grid) : List (Option String) :=
  (List.range (gridWidth g)).map (fun c =>
    match cellAt g 0 c with
    | Cell.str s => some s
    | _ => none)

def labelIdx? (labels : List (Option String)) (s : String) : Option Nat :=
  labels.findIdx? (fun l => l = some s)

/-- `pd.to_numeric(..., errors="coerce")` on one cell. -/
def toNumeric (c : Cell) : Option Rat :=
  match c with
  | Cell.empty => none
  | Cell.num q => some q
  | Cell.str s => parseRat? s

/-- Lines 119-144 (named-header path): iterate data rows; `float` of the
two KM cells under `except (TypeError, ValueError)`, skip on `NaN`;
`km_total = km_f - km_i + 1 if km_f >= km_i else 0` (line 128); one row per
vehicle column with a parseable percentage. -/
def bvRelLoopA (g : Grid) (idxI idxF : Nat) (kmCols : List (Nat × String)) :
    List RelRow :=
  (List.range (g.length - 1)).flatMap (fun i =>
    let r := i + 1
    match pyFloat (cellAt g r idxI), pyFloat (cellAt g r idxF) with
    | .ok (some ki), .ok (some kf) =>
      let kmt : Rat := if ki ≤ kf then kf - ki + 1 else 0
      kmCols.filterMap (fun vc =>
        (pyNum (cellAt g r vc.1)).map (fun pct => ⟨vc.2, some ki, some kf, some kmt, pct⟩))
    | _, _ => [])

/-- Lines 106-144 (positional path): KM bounds from columns 0-1 coerced
with `to_numeric`, vehicle columns discovered in row 0 from column 2.
A vehicle name appearing on two columns yields duplicate column labels
after the rename, so `row.get(name)` returns a `Series` and
`float(Series)` raises `TypeError`, caught → skipped; such columns are
dropped here. -/
def bvRelLoopB (g : Grid) : List RelRow :=
  let vehCols := (List.range (gridWidth g)).filterMap (fun c =>
    if 2 ≤ c then
      match cellAt g 0 c with
      | Cell.str s => if s.trim ∈ CANONICAL_VEHICLES then some (c, s.trim) else none
      | _ => none
    else none)
  let uniqueVehCols := vehCols.filter (fun vc =>
    (vehCols.filter (fun vc2 => vc2.2 = vc.2)).length = 1)
  (List.range (g.length - 1)).flatMap (fun i =>
    let r := i + 1
    match toNumeric (cellAt g r 0), toNumeric (cellAt g r 1) with
    | some ki, some kf =>
      let kmt : Rat := if ki ≤ kf then kf - ki + 1 else 0
      uniqueVehCols.filterMap (fun vc =>
        (pyNum (cellAt g r vc.1)).map (fun pct => ⟨vc.2, some ki, some kf, some kmt, pct⟩))
    | _, _ => [])

/-- Lines 146-172 (last-resort path, entered when `rows_rel` is empty):
re-read raw, `float` the first two cells of each data row under
`except (TypeError, ValueError)` with *no* `NaN` check, scan row 0 for
canonical vehicle names on columns `2 ≤ c < min(width, 2 + |canonical|)`,
and compute `km_total = km_f - km_i + 1` with no order guard (line 169). -/
def bvRelLoopC (g : Grid) : List RelRow :=
  (List.range (g.length - 1)).flatMap (fun i =>
    let r := i + 1
    match pyFloat (cellAt g r 0), pyFloat (cellAt g r 1) with
    | .ok oi, .ok of =>
      let kmt : Option Rat :=
        match oi, of with
        | some ki, some kf => some (kf - ki + 1)
        | _, _ => none
      (List.range (min (gridWidth g) (2 + CANONICAL_VEHICLES.length))).filterMap (fun c =>
        if 2 ≤ c then
          match cellAt g 0 c with
          | Cell.str s =>
            if s.trim ∈ CANONICAL_VEHICLES then
              (pyNum (cellAt g r c)).map (fun pct => ⟨s.trim, oi, of, kmt, pct⟩)
            else none
          | _ => none
        else none)
    | _, _ => [])

/-- The canonical-vehicle-named columns visible to the named-header path
(duplicate header labels are pandas-mangled, so only each label's first
column counts). -/
def bvRelKmCols (g : Grid) : List (Nat × String) :=
  (List.range (gridWidth g)).filterMap (fun c =>
    match (headerLabels g).get? c with
    | some (some name) =>
      if name ∈ CANONICAL_VEHICLES ∧ labelIdx? (headerLabels g) name = some c then
        some (c, name)
      else none
    | _ => none)

/-- Lines 101-117 when the named headers are missing: re-read `header=None`
and rename columns `"0"`/`"1"` — the renamed string-index columns are never
canonical vehicle names, so the positional block always runs: with at least
two columns the positional loop; with exactly one column and at least one
row, `row["KM FINAL"]` raises `KeyError` (not caught by
`except (TypeError, ValueError)`). -/
def bvRelNoHeader (g : Grid) : Except String (List RelRow) :=
  if 2 ≤ gridWidth g then .ok (bvRelLoopB g)
  else if gridWidth g = 1 ∧ 1 ≤ g.length then .error "KeyError" else .ok []

/-- Lines 98-145: the primary/positional chain of the `RELAÇÃO % FRETE IDA`
parse.  With named `KM INICIAL`/`KM FINAL` headers and at least one
vehicle-named column, the named path runs; with the headers but no vehicle
column, the line-105 block re-reads the sheet positionally exactly as in
the headerless case. -/
def bvRelPrimary (g : Grid) : Except String (List RelRow) :=
  match labelIdx? (headerLabels g) "KM INICIAL" with
  | none => bvRelNoHeader g
  | some idxI =>
    match labelIdx? (headerLabels g) "KM FINAL" with
    | none => bvRelNoHeader g
    | some idxF =>
      if bvRelKmCols g ≠ [] then .ok (bvRelLoopA g idxI idxF (bvRelKmCols g))
      else if 2 ≤ gridWidth g then .ok (bvRelLoopB g)
      else if 1 ≤ g.length then .error "KeyError" else .ok []

/-- Lines 98-173: the `RELAÇÃO % FRETE IDA` parse with its fallback chain;
if the chosen path yields nothing, the line-147 last-resort loop runs. -/
def bvRel (g : Grid) : Except String (List RelRow) :=
  match bvRelPrimary g with
  | .error e => .error e
  | .ok rel => if rel = [] then .ok (bvRelLoopC g) else .ok rel

/-- Lines 175-184: the fixed-cost main table.  Each `RELAÇÃO` row is
left-joined with its vehicle's pivot metrics; with no `RELAÇÃO` rows, one
degenerate `(0, 0, 0)` band per pivot vehicle keeps the vehicle-level
metrics; finally the `source` column is added. -/
def bvAssemble (ms : List (String × String × Rat)) (rel : List RelRow) : Table :=
  if rel ≠ [] then
    rel.map (fun rr =>
      { key := ⟨rr.vt, rr.ki, rr.kf⟩
        cells :=
          [("km_total", rr.kt.map Val.num),
           ("pct_frete_ida", some (Val.num rr.pct))]
          ++ bvPivotCells ms rr.vt
          ++ [("source", some (Val.str "BASE_VALORES"))] })
  else
    (bvPivot ms).map (fun p =>
      { key := ⟨p.1, some 0, some 0⟩
        cells :=
          p.2 ++ [("km_total", some (Val.num 0)),
                  ("source", some (Val.str "BASE_VALORES"))] })

/-- `read_base_valores`: `VIAGEM` context (the sheet is read
unconditionally — its absence raises), cost-sheet unpivot/pivot, `RELAÇÃO`
bands (again read unconditionally), assembly.  The context row always holds
`dias_uteis or 24`. -/
def read_base_valores (wb : Wb) : Except String (Table × Ctx) :=
  match findSheet wb "VIAGEM" with
  | none => .error "ValueError: no sheet VIAGEM"
  | some gv =>
    match bvDias gv with
    | .error e => .error e
    | .ok dias =>
      let ms := bvMetrics wb
      match findSheet wb "RELAÇÃO % FRETE IDA" with
      | none => .error "ValueError: no sheet RELAÇÃO % FRETE IDA"
      | some gr =>
        match bvRel gr with
        | .error e => .error e
        | .ok rel =>
          .ok (bvAssemble ms rel,
               [("dias_uteis", some (Val.num ((pyOrInt dias 24 : Int) : Rat)))])

/-! ## `read_cotacao.py` — context scan (lines 22-43)

Only the context record of the quotation workbook is claim-relevant; its
two table sheets are consumed by the merge claims through the abstract
extractor output. -/

/-- `pat` occurs as a contiguous substring (Python `in` on `str`). -/
def listInfix (pat l : List Char) : Bool :=
  (List.range (l.length + 1)).any (fun i => (l.drop i).take pat.length = pat)

/-- A present cell as a context value. -/
def cellVal (c : Cell) : Val :=
  match c with
  | Cell.str s => Val.str s
  | Cell.num q => Val.num q
  | Cell.empty => Val.str ""

/-- Python-dict assignment: overwrite in place or append. -/
def ctxSet (ctx : Ctx) (k : String) (v : Option Val) : Ctx :=
  if ctx.any (fun p => p.1 = k) then
    ctx.map (fun p => if p.1 = k then (k, v) else p)
  else ctx ++ [(k, v)]

/-- The body of the label scan for one row `r`: exact label matches for the
six named fields (`Nº` reading column 2, `Revisão:` column 3, the rest
column 1), then the `"Km" in s` substring match.  `df_cot.iloc[r, 2]` and
`df_cot.iloc[r, 3]` are evaluated unguarded and raise `IndexError` on
narrow sheets. -/
def cotScanRow (g : Grid) (ctx : Ctx) (r : Nat) : Except String Ctx :=
  let label := cellAt g r 0
  let valNotna : Bool := 1 < gridWidth g ∧ cellNotna (cellAt g r 1)
  let val : Val := cellVal (cellAt g r 1)
  if cellNotna label then
    let s := (pyStr label).trim
    if s = "Nº" ∧ r + 1 ≤ g.length then
      if gridWidth g < 3 then .error "IndexError"
      else .ok (ctxSet ctx "numero_cotacao"
        (if cellNotna (cellAt g r 2) then some (Val.str (pyStr (cellAt g r 2))) else none))
    else if s = "Data:" ∧ valNotna then .ok (ctxSet ctx "data_cotacao" (some val))
    else if s = "Revisão:" then
      if gridWidth g < 4 then .error "IndexError"
      else if cellNotna (cellAt g r 3) then
        .ok (ctxSet ctx "revisao" (some (cellVal (cellAt g r 3))))
      else .ok ctx
    else if s = "Cliente:" ∧ valNotna then .ok (ctxSet ctx "cliente" (some val))
    else if s = "Origem:" ∧ valNotna then .ok (ctxSet ctx "origem" (some val))
    else if s = "Destino:" ∧ valNotna then .ok (ctxSet ctx "destino" (some val))
    else if listInfix "Km".data s.data ∧ valNotna then .ok (ctxSet ctx "km_rota" (some val))
    else .ok ctx
  else .ok ctx

/-- Lines 24-43: `for r in range(min(20, len(df_cot)))` — the scan visits
only the first 20 rows of the `COTAÇÃO` sheet. -/
def cotContext (g : Grid) : Except String Ctx :=
  (List.range (min 20 g.length)).foldlM (cotScanRow g) []

/-! ## Auxiliary definitions for the claims -/

/-- The three boolean source-marker columns `merge_all` adds. -/
def markerCols : List String := ["_source_bv", "_source_cf", "_source_cot"]

/-- A table up to its source-marker columns. -/
def stripMarkers (t : Table) : Table :=
  t.map (fun r => { r with cells := r.cells.filter (fun p => ¬ p.1 ∈ markerCols) })

/-- Written from the claim's words, for comparison with `_slug`: "lowercases
it, maps spaces to underscores and `%` to `pct`, strips the characters
`/ ( ) : . -`, and truncates to at most 50 characters". -/
def slugClaimWording (s : String) : String :=
  ⟨((s.data.map Char.toLower).flatMap (fun c =>
      if c = ' ' then ['_']
      else if c = '%' then ['p', 'c', 't']
      else if c = '/' ∨ c = '(' ∨ c = ')' ∨ c = ':' ∨ c = '.' ∨ c = '-' then []
      else [c])).take 50⟩

/-- C1 failing input: a computed-freight workbook whose `VAN_CS` sheet has a
data row with `KM INICIAL = 10`, `KM FINAL = 5` and a blank `KM TOTAL`. -/
def c1Wb : Wb :=
  [("VAN_CS",
    [[],
     [Cell.empty, Cell.empty, Cell.empty, Cell.empty, Cell.empty, Cell.empty,
      Cell.empty, Cell.empty, Cell.empty, Cell.num 10, Cell.num 5, Cell.empty,
      Cell.empty, Cell.empty, Cell.empty, Cell.empty, Cell.empty, Cell.empty,
      Cell.empty, Cell.empty, Cell.empty]])]

/-- The row the computed-freight extractor produces from `c1Wb`. -/
def c1CfRow : Row :=
  { key := ⟨"VAN - CARGA SECA", some 10, some 5⟩
    cells :=
      [("km_total", none), ("valor_dia_util_calculo", none),
       ("mensal_calculo", none), ("por_km_calculo", none),
       ("frete_peso_entrega", none), ("frete_peso_retorno", none),
       ("frete_peso_viagem", none)] }

/-- The corresponding merged row: `km_total` backfilled to `5 - 10 + 1`. -/
def c1Merged : Row :=
  { key := ⟨"VAN - CARGA SECA", some 10, some 5⟩
    cells :=
      [("km_total", some (Val.num (-4))), ("valor_dia_util_calculo", none),
       ("mensal_calculo", none), ("por_km_calculo", none),
       ("frete_peso_entrega", none), ("frete_peso_retorno", none),
       ("frete_peso_viagem", none),
       ("_source_cf", some (Val.bool true))] }

/-- C3 failing input, the spec's own example: source A contributes
`{cliente: "X"}`, source B `{cliente: "Y", origem: "Z"}`. -/
def c3CtxA : Ctx := [("cliente", some (Val.str "X"))]

def c3CtxB : Ctx := [("cliente", some (Val.str "Y")), ("origem", some (Val.str "Z"))]

/-- A non-empty main table so that the merge reaches the context step. -/
def c3MainA : Table :=
  [{ key := ⟨"VAN - CARGA SECA", some 0, some 100⟩
     cells := [("km_total", some (Val.num 101))] }]

/-- C7 counterexample input: a single source whose own table has two rows
with the same `(vehicle_type, km_inicial, km_final)` key. -/
def c7Dup : Table :=
  [{ key := ⟨"VAN - CARGA SECA", some 0, some 100⟩
     cells := [("km_total", some (Val.num 101)), ("frete_peso_entrega", some (Val.num 1))] },
   { key := ⟨"VAN - CARGA SECA", some 0, some 100⟩
     cells := [("km_total", some (Val.num 101)), ("frete_peso_entrega", some (Val.num 2))] }]

/-- What `merge_all` keeps of `c7Dup`: the first row only, marked. -/
def c7DupMerged : Table :=
  [{ key := ⟨"VAN - CARGA SECA", some 0, some 100⟩
     cells := [("km_total", some (Val.num 101)), ("frete_peso_entrega", some (Val.num 1)),
               ("_source_cf", some (Val.bool true))] }]

/-- C8 input: a computed-freight workbook with no per-vehicle sheet but a
valid consolidated `FRETE PESO - GERAL` sheet holding one resolvable
vehicle group ("Van - Carga Seca") and one unresolvable group ("???"). -/
def c8Geral : Grid :=
  [[Cell.str "header"],
   [],
   [Cell.empty, Cell.empty, Cell.empty, Cell.empty, Cell.empty,
    Cell.str "Van - Carga Seca", Cell.empty, Cell.empty, Cell.str "???", Cell.empty],
   [],
   [Cell.str "0-100", Cell.num 0, Cell.num 100, Cell.num 101,
    Cell.num 10, Cell.num 11, Cell.num 12, Cell.num 20, Cell.num 21, Cell.num 22]]

def c8Wb : Wb := [("STUFF", [[Cell.num 1]]), ("FRETE PESO - GERAL", c8Geral)]

/-- The single fallback row extracted from `c8Wb` (the `???` group is
silently skipped). -/
def c8Expected : Table :=
  [{ key := ⟨"VAN - CARGA SECA", some 0, some 100⟩
     cells :=
       [("km_total", some (Val.num 101)),
        ("valor_dia_util_calculo", some (Val.num 10)),
        ("frete_peso_entrega", some (Val.num 10)),
        ("frete_peso_retorno", some (Val.num 11)),
        ("frete_peso_viagem", some (Val.num 12))] }]

/-- C5 failing input: a workbook that opens (one sheet) but has no `VIAGEM`
sheet. -/
def c5WbNoViagem : Wb := [("OTHER", [[Cell.num 1]])]

/-- C5 witness workbook: mandatory sheets present and wide enough; the cost
sheet holds a blank and an unparseable cell, the band sheet an unparseable
row — all recovered. -/
def c5Viagem : Grid := [[Cell.str "junk"], [Cell.str "DIAS ÚTEIS:", Cell.str "oops"]]

def c5Seguro : Grid :=
  [[Cell.empty, Cell.str "VAN - CARGA SECA", Cell.str "TOCO - CARGA SECA"],
   [Cell.str "Seguro", Cell.num 100, Cell.empty],
   [Cell.str "Taxa", Cell.str "n/a", Cell.num 7]]

def c5Rel : Grid :=
  [[Cell.str "KM INICIAL", Cell.str "KM FINAL", Cell.str "VAN - CARGA SECA"],
   [Cell.num 0, Cell.num 100, Cell.num 5],
   [Cell.str "bad", Cell.empty, Cell.num 7]]

def c5Geral : Grid := [[], [], [], []]

def c5Wb : Wb :=
  [("VIAGEM", c5Viagem), ("SEGURO - FROTA", c5Seguro),
   ("RELAÇÃO % FRETE IDA", c5Rel), ("FRETE PESO - GERAL", c5Geral)]

/-- C9 counterexample grid: `Cliente:` sits at row index 20 (the 21st row),
outside the scan window; rows 0-19 are blank. -/
def c9Beyond : Grid :=
  [[], [], [], [], [], [], [], [], [], [],
   [], [], [], [], [], [], [], [], [], [],
   [Cell.str "Cliente:", Cell.str "X"]]

/-- The same label and value at row index 19, the last scanned row. -/
def c9Inside : Grid :=
  [[], [], [], [], [], [], [], [], [], [],
   [], [], [], [], [], [], [], [], [],
   [Cell.str "Cliente:", Cell.str "X"]]

/-- C9 demonstration grid: labels at assorted rows within the window,
including a route-km label matched by the `"Km"` substring. -/
def c9Demo : Grid :=
  [[Cell.str "Nº", Cell.empty, Cell.num 123],
   [],
   [Cell.str "Data:", Cell.str "2024-01-01"],
   [], [], [], [],
   [Cell.str "Cliente:", Cell.str "X"],
   [], [], [], [],
   [Cell.str "Total Km:", Cell.num 100]]

/-- C10 witness workbook: `DIAS ÚTEIS:` present and parseable (22). -/
def c10Wb : Wb :=
  [("VIAGEM", [[Cell.str "junk"], [Cell.str "DIAS ÚTEIS:", Cell.num 22]]),
   ("RELAÇÃO % FRETE IDA",
     [[Cell.str "KM INICIAL", Cell.str "KM FINAL", Cell.str "VAN - CARGA SECA"],
      [Cell.num 0, Cell.num 100, Cell.num 5]])]

/-- The main table `read_base_valores` extracts from `c10Wb`. -/
def c10Main : Table :=
  [{ key := ⟨"VAN - CARGA SECA", some 0, some 100⟩
     cells :=
       [("km_total", some (Val.num 101)), ("pct_frete_ida", some (Val.num 5)),
        ("source", some (Val.str "BASE_VALORES"))] }]

/-- C7 witness source table: unique key, `km_total` present. -/
def c7Single : Table :=
  [{ key := ⟨"TOCO - CARGA SECA", some 0, some 50⟩
     cells := [("km_total", some (Val.num 51))] }]

/-- C2 witness source table. -/
def c2Cf : Table :=
  [{ key := ⟨"VAN - CARGA SECA", some 0, some 100⟩
     cells := [("km_total", some (Val.num 101))] },
   { key := ⟨"VAN - CARGA SECA", some 0, some 100⟩
     cells := [("km_total", some (Val.num 200))] }]

/-- The merged table for `c2Cf` (first-seen row kept). -/
def c2Merged : Table :=
  [{ key := ⟨"VAN - CARGA SECA", some 0, some 100⟩
     cells := [("km_total", some (Val.num 101)), ("_source_cf", some (Val.bool true))] }]

/-! ## Helper lemmas -/

theorem dedupGo_key_not_mem_seen :
    ∀ (l : Table) (seen : List Key) (r : Row), r ∈ dedupGo seen l → r.key ∉ seen := by
  intro l
  induction l with
  | nil => intro seen r h; simp [dedupGo] at h
  | cons x rest ih =>
    intro seen r h
    unfold dedupGo at h
    by_cases hx : x.key ∈ seen
    · rw [if_pos hx] at h
      exact ih seen r h
    · rw [if_neg hx] at h
      rcases List.mem_cons.mp h with rfl | h2
      · exact hx
      · have h3 := ih _ r h2
        intro hc
        exact h3 (List.mem_cons_of_mem _ hc)

theorem dedupGo_keys_nodup :
    ∀ (l : Table) (seen : List Key), ((dedupGo seen l).map Row.key).Nodup := by
  intro l
  induction l with
  | nil => intro seen; simp [dedupGo]
  | cons x rest ih =>
    intro seen
    unfold dedupGo
    by_cases hx : x.key ∈ seen
    · rw [if_pos hx]; exact ih seen
    · rw [if_neg hx]
      refine List.nodup_cons.mpr ⟨?_, ih _⟩
      intro hmem
      rcases List.mem_map.mp hmem with ⟨r, hr, hk⟩
      have := dedupGo_key_not_mem_seen rest (x.key :: seen) r hr
      exact this (hk ▸ List.mem_cons_self _ _)

theorem dedupGo_find? :
    ∀ (l : Table) (seen : List Key) (r : Row), r ∈ dedupGo seen l →
      l.find? (fun x => x.key = r.key) = some r := by
  intro l
  induction l with
  | nil => intro seen r h; simp [dedupGo] at h
  | cons x rest ih =>
    intro seen r h
    unfold dedupGo at h
    by_cases hx : x.key ∈ seen
    · rw [if_pos hx] at h
      have hr := dedupGo_key_not_mem_seen rest seen r h
      have hne : ¬ (x.key = r.key) := fun he => hr (he ▸ hx)
      rw [List.find?_cons_of_neg _ (by simpa using hne)]
      exact ih seen r h
    · rw [if_neg hx] at h
      rcases List.mem_cons.mp h with rfl | h2
      · rw [List.find?_cons_of_pos _ (by simp)]
      · have hr := dedupGo_key_not_mem_seen rest (x.key :: seen) r h2
        have hne : ¬ (x.key = r.key) := fun he => hr (he ▸ List.mem_cons_self _ _)
        rw [List.find?_cons_of_neg _ (by simpa using hne)]
        exact ih _ r h2

theorem dedupKeepFirst_keys_nodup (t : Table) :
    ((dedupKeepFirst t).map Row.key).Nodup :=
  dedupGo_keys_nodup t []

theorem dedupKeepFirst_find? (t : Table) (r : Row) (h : r ∈ dedupKeepFirst t) :
    t.find? (fun x => x.key = r.key) = some r :=
  dedupGo_find? t [] r h

theorem dedupGo_eq_self :
    ∀ (l : Table) (seen : List Key), (l.map Row.key).Nodup →
      (∀ k ∈ l.map Row.key, k ∉ seen) → dedupGo seen l = l := by
  intro l
  induction l with
  | nil => intro seen _ _; rfl
  | cons x rest ih =>
    intro seen hnd hdisj
    have hx : x.key ∉ seen := hdisj x.key (by simp)
    unfold dedupGo
    rw [if_neg hx]
    congr 1
    rcases List.nodup_cons.mp hnd with ⟨hxr, hrest⟩
    refine ih (x.key :: seen) hrest ?_
    intro k hk
    intro hc
    rcases List.mem_cons.mp hc with he | hseen
    · exact hxr (he ▸ hk)
    · exact hdisj k (List.mem_cons_of_mem _ hk) hseen

theorem dedupKeepFirst_eq_self (t : Table) (h : (t.map Row.key).Nodup) :
    dedupKeepFirst t = t :=
  dedupGo_eq_self t [] h (by simp)

theorem map_eq_self_of_eq {α : Type} (f : α → α) :
    ∀ (l : List α), (∀ x ∈ l, f x = x) → l.map f = l := by
  intro l
  induction l with
  | nil => intro _; rfl
  | cons x rest ih =>
    intro h
    simp only [List.map_cons]
    rw [h x (by simp), ih (fun y hy => h y (List.mem_cons_of_mem _ hy))]

theorem fillKmTotal_eq_self (t : Table)
    (h : ∀ r ∈ t, ¬(getCell r "km_total" = none ∧ r.key.ki ≠ none ∧ r.key.kf ≠ none)) :
    fillKmTotal t = t := by
  unfold fillKmTotal
  split
  · exact map_eq_self_of_eq _ t (fun r hr => if_neg (h r hr))
  · rfl

/-- `addMarker` does not change keys. -/
theorem addMarker_map_key (name : String) (t : Table) :
    (addMarker name t).map Row.key = t.map Row.key := by
  unfold addMarker
  rw [List.map_map]
  rfl

/-- `addMarker` does not change any non-marker cell lookup. -/
theorem getCell_addMarker (name : String) (c : String) (hne : ¬ c = name)
    (r : Row) :
    getCell { r with cells := r.cells ++ [(name, some (Val.bool true))] } c
      = getCell r c := by
  unfold getCell
  rw [List.find?_append]
  have hnc : ¬ (((name, some (Val.bool true)) : String × Option Val).1 = c) :=
    fun h => hne h.symm
  have : List.find? (fun p => p.1 = c)
      [((name, some (Val.bool true)) : String × Option Val)] = none := by
    rw [List.find?_cons_of_neg _ (by simpa using hnc), List.find?_nil]
  rw [this]
  cases List.find? (fun p => p.1 = c) r.cells <;> rfl

theorem stripMarkers_addMarker (name : String) (hn : name ∈ markerCols) (t : Table) :
    stripMarkers (addMarker name t) = stripMarkers t := by
  unfold stripMarkers addMarker
  rw [List.map_map]
  refine List.map_congr_left ?_
  intro r _
  simp only [Function.comp]
  congr 1
  rw [List.filter_append]
  have : List.filter (fun p => decide (p.1 ∉ markerCols))
      [((name, some (Val.bool true)) : String × Option Val)] = [] := by
    simp [List.filter, hn]
  rw [this, List.append_nil]

theorem combineContext_single (c : Ctx) (h : (c.map Prod.fst).Nodup) :
    combineContext [c] = .ok c := by
  unfold combineContext
  simp [h]

theorem combineContext_nil : combineContext [] = .ok [] := by
  unfold combineContext
  simp

theorem mainsOf_bv (t : Table) (cb : Ctx) :
    mainsOf (some (t, cb)) none none = [addMarker "_source_bv" t] := rfl

theorem mainsOf_cf (t : Table) (h : ¬ t = []) :
    mainsOf none (some t) none = [addMarker "_source_cf" t] := by
  unfold mainsOf
  simp [h]

theorem mainsOf_cot (t : Table) (cc : Ctx) (h : ¬ t = []) :
    mainsOf none none (some (t, cc)) = [addMarker "_source_cot" t] := by
  unfold mainsOf
  simp [h]

/-- The single-source merge pipeline leaves a duplicate-free, backfill-free
table unchanged. -/
theorem merge_pipeline_single (name : String) (t : Table)
    (h1 : (t.map Row.key).Nodup)
    (h2 : ∀ r ∈ t, ¬ getCell r "km_total" = none ∨ r.key.ki = none ∨ r.key.kf = none)
    (hne : ¬ ("km_total" : String) = name) :
    dedupKeepFirst (fillKmTotal (addMarker name t)) = addMarker name t := by
  have hfill : fillKmTotal (addMarker name t) = addMarker name t := by
    refine fillKmTotal_eq_self _ ?_
    intro r' hr'
    rcases List.mem_map.mp hr' with ⟨r, hr, rfl⟩
    have hget := getCell_addMarker name "km_total" hne r
    rcases h2 r hr with hk | hki | hkf
    · intro hc
      exact hk (hget ▸ hc.1)
    · intro hc
      exact hc.2.1 hki
    · intro hc
      exact hc.2.2 hkf
  rw [hfill]
  exact dedupKeepFirst_eq_self _ ((addMarker_map_key name t).symm ▸ h1)

/-! ## Claim theorems -/

/-- C1 (code_bug): the merge backfill at `merge_all.py` lines 73-78 fills
`km_total = km_final - km_inicial + 1` whenever `km_total` is absent and
both bounds are present, with no `km_final >= km_inicial` guard — unlike
`read_base_valores.py` line 128, which yields 0 for an inverted band.  A
computed-freight row with bounds `(10, 5)` and a blank `KM TOTAL` cell is
extracted with `km_total` absent, and the merged table carries
`km_total = -4 < 0`, contradicting "never negative". -/
theorem c1_merge_backfills_negative_km_total :
    read_calculo_frete c1Wb = .ok [c1CfRow] ∧
    merge_all none (some [c1CfRow]) none = .ok ([c1Merged], []) ∧
    getCell c1Merged "km_total" = some (Val.num (-4)) ∧ (-4 : Rat) < 0 :=
  ⟨by with_unfolding_all rfl, by with_unfolding_all rfl,
   by with_unfolding_all rfl, by norm_num⟩

/-- C2 (confirmed): whatever combination of sources is present, a
successfully merged FactTable has pairwise-distinct
`(vehicle_type, km_inicial, km_final)` keys, and each surviving row is the
first row bearing its key in the pre-deduplication merged table
(`drop_duplicates(..., keep="first")`). -/
theorem c2_merged_keys_unique_first_wins
    (bv : Option (Table × Ctx)) (cf : Option Table) (cot : Option (Table × Ctx))
    (t : Table) (c : Ctx) (h : merge_all bv cf cot = .ok (t, c)) :
    (t.map Row.key).Nodup ∧
    ∀ r ∈ t, (preMergeTable bv cf cot).find? (fun x => x.key = r.key) = some r := by
  unfold merge_all at h
  by_cases hm : mainsOf bv cf cot = []
  · rw [if_pos hm] at h
    simp only [Except.ok.injEq, Prod.mk.injEq] at h
    rw [← h.1]
    exact ⟨List.nodup_nil, by simp⟩
  · rw [if_neg hm] at h
    cases hc : combineContext (ctxsOf bv cot) with
    | error e => rw [hc] at h; exact absurd h (by simp)
    | ok ctx =>
      rw [hc] at h
      simp only [Except.ok.injEq, Prod.mk.injEq] at h
      rw [← h.1]
      exact ⟨dedupKeepFirst_keys_nodup _, fun r hr => dedupKeepFirst_find? _ r hr⟩

theorem c2_merged_keys_unique_first_wins_witness :
    (c2Merged.map Row.key).Nodup ∧
    (preMergeTable none (some c2Cf) none).find?
        (fun x => x.key = ({ key := ⟨"VAN - CARGA SECA", some 0, some 100⟩
                             cells := [("km_total", some (Val.num 101)),
                                       ("_source_cf", some (Val.bool true))] } : Row).key)
      = some { key := ⟨"VAN - CARGA SECA", some 0, some 100⟩
               cells := [("km_total", some (Val.num 101)),
                         ("_source_cf", some (Val.bool true))] } :=
  ⟨(c2_merged_keys_unique_first_wins none (some c2Cf) none c2Merged []
      (by with_unfolding_all rfl)).1,
   (c2_merged_keys_unique_first_wins none (some c2Cf) none c2Merged []
      (by with_unfolding_all rfl)).2
     { key := ⟨"VAN - CARGA SECA", some 0, some 100⟩
       cells := [("km_total", some (Val.num 101)),
                 ("_source_cf", some (Val.bool true))] }
     (by with_unfolding_all decide)⟩

/-- C3 (code_bug): on the claim's own example — source A contributing
`{cliente: "X"}` before source B contributing `{cliente: "Y", origem: "Z"}`
— the context-flattening loop of `merge_all.py` lines 86-95 does not yield
`cliente = "X"`, `origem = "Z"`: `pd.concat(axis=1)` keeps both `cliente`
columns, `context_flat[c]` is then a DataFrame, and
`bool(DataFrame.isna().all())` raises `ValueError`, escaping `merge_all`. -/
theorem c3_context_combination_raises_on_shared_field :
    merge_all (some (c3MainA, c3CtxA)) none (some ([], c3CtxB))
      = .error "ValueError: The truth value of a Series is ambiguous" ∧
    combineContext [c3CtxA, c3CtxB]
      = .error "ValueError: The truth value of a Series is ambiguous" :=
  ⟨by with_unfolding_all rfl, by with_unfolding_all rfl⟩

/-- C4 (counterexample): `_slug` does not *strip* `-` (nor `/`): it rewrites
them to underscores (`read_base_valores.py` lines 193 and 196), so
`_slug "A-B" = "a_b"` while the claim's wording demands `"ab"`. -/
theorem c4_slug_strip_counterexample :
    _slug "A-B" = "a_b" ∧ slugClaimWording "A-B" = "ab" ∧
    _slug "A-B" ≠ slugClaimWording "A-B" :=
  ⟨by with_unfolding_all rfl, by with_unfolding_all rfl, by with_unfolding_all decide⟩

/-- C4 (amended): slugification lowercases, maps each of space, `/`, `-` to
an underscore and `%` to `pct`, strips `( ) : .`, and truncates to at most
50 characters; it is deterministic (a pure function), its output never
exceeds 50 characters and never contains any of the nine rewritten or
stripped characters. -/
theorem c4_slug_deterministic_bounded :
    ∀ s : String,
      (_slug s).length ≤ 50 ∧
      ((_slug s).data.all (fun c =>
        ¬(c = ' ' ∨ c = '%' ∨ c = '/' ∨ c = '(' ∨ c = ')' ∨ c = '-' ∨
          c = ':' ∨ c = '.'))) = true ∧
      _slug "A-B/C (X): 10%." = "a_b_c_x_10pct" := by
  intro s
  refine ⟨?_, ?_, by with_unfolding_all rfl⟩
  · show (String.mk (((s.data.map Char.toLower).flatMap slugCharList).take 50)).length ≤ 50
    simp only [String.length, List.length_take]
    omega
  · rw [List.all_eq_true]
    intro c hc
    have hc2 : c ∈ (s.data.map Char.toLower).flatMap slugCharList :=
      List.mem_of_mem_take hc
    rcases List.mem_flatMap.mp hc2 with ⟨b, _, ha⟩
    rw [decide_eq_true_eq]
    unfold slugCharList at ha
    split_ifs at ha with h1 h2 h3 h4 h5 h6 h7 h8
    · have hcb : c = '_' := by simpa using ha
      subst hcb; decide
    · have hcb : c = 'p' ∨ c = 'c' ∨ c = 't' := by simpa using ha
      rcases hcb with rfl | rfl | rfl <;> decide
    · have hcb : c = '_' := by simpa using ha
      subst hcb; decide
    · simp at ha
    · simp at ha
    · have hcb : c = '_' := by simpa using ha
      subst hcb; decide
    · simp at ha
    · simp at ha
    · have hcb : c = b := by simpa using ha
      subst hcb
      simp [h1, h2, h3, h4, h5, h6, h7, h8]

/-- C6 (confirmed): with no file present — and more generally whenever no
source contributes main rows (the computed-freight and quotation tables
empty or absent, the fixed-cost file absent) — `merge_all` returns two
empty tables and no exception escapes. -/
theorem c6_zero_sources_two_empty_tables
    (cf : Option Table) (cot : Option (Table × Ctx))
    (hcf : cf = none ∨ cf = some []) (hcot : cot = none ∨ ∃ c, cot = some ([], c)) :
    merge_all none cf cot = .ok ([], []) := by
  rcases hcf with rfl | rfl <;> rcases hcot with rfl | ⟨c, rfl⟩ <;> rfl

theorem c6_zero_sources_two_empty_tables_witness :
    merge_all none (some []) (some ([], [("cliente", some (Val.str "Y"))]))
      = .ok ([], []) :=
  c6_zero_sources_two_empty_tables (some [])
    (some ([], [("cliente", some (Val.str "Y"))])) (Or.inr rfl) (Or.inr ⟨_, rfl⟩)

/-- C7 (counterexample): a single present source whose own table carries two
rows with the same key (e.g. the two `FIORINO_CS`/`FIORINO_CS_AG` sheets
can produce equal-key rows) is *not* returned unchanged: the merge's
deduplication drops the second row, so the FactTable differs from the
extractor's table even after ignoring source-marker columns. -/
theorem c7_single_source_counterexample :
    merge_all none (some c7Dup) none = .ok (c7DupMerged, []) ∧
    stripMarkers c7DupMerged ≠ stripMarkers c7Dup :=
  ⟨by with_unfolding_all rfl, by with_unfolding_all decide⟩

/-- C7 (amended): with exactly one present source, the merged FactTable
equals that source's own main table up to the source-marker columns,
provided the source table has no duplicate keys and no row in which
`km_total` is absent while both KM bounds are present (otherwise the
merge's dedup/backfill steps alter it). -/
theorem c7_single_source_equal_upto_markers
    (t : Table) (cb cc : Ctx)
    (h1 : (t.map Row.key).Nodup)
    (h2 : ∀ r ∈ t, ¬ getCell r "km_total" = none ∨ r.key.ki = none ∨ r.key.kf = none)
    (h3 : (cb.map Prod.fst).Nodup) (h4 : (cc.map Prod.fst).Nodup) :
    (merge_all (some (t, cb)) none none).map (fun out => stripMarkers out.1)
      = .ok (stripMarkers t) ∧
    (merge_all none (some t) none).map (fun out => stripMarkers out.1)
      = .ok (stripMarkers t) ∧
    (merge_all none none (some (t, cc))).map (fun out => stripMarkers out.1)
      = .ok (stripMarkers t) := by
  have hpre : preMergeTable (some (t, cb)) none none
      = fillKmTotal (addMarker "_source_bv" t) := by
    unfold preMergeTable
    rw [mainsOf_bv]
    show fillKmTotal (List.foldl outerJoin (addMarker "_source_bv" t) []) = _
    rw [List.foldl_nil]
  refine ⟨?_, ?_, ?_⟩
  · have hmerge : merge_all (some (t, cb)) none none
        = .ok (addMarker "_source_bv" t, cb) := by
      unfold merge_all
      rw [if_neg (by rw [mainsOf_bv]; simp)]
      have hctx : combineContext (ctxsOf (some (t, cb)) none) = .ok cb := by
        show combineContext ([cb] ++ []) = .ok cb
        rw [List.append_nil]
        exact combineContext_single cb h3
      rw [hctx]
      rw [hpre, merge_pipeline_single _ t h1 h2 (by decide)]
    rw [hmerge]
    show Except.ok (stripMarkers (addMarker "_source_bv" t)) = _
    rw [stripMarkers_addMarker _ (by simp [markerCols]) t]
  · by_cases ht : t = []
    · subst ht
      rfl
    · have hmerge : merge_all none (some t) none
          = .ok (addMarker "_source_cf" t, []) := by
        unfold merge_all
        rw [if_neg (by rw [mainsOf_cf t ht]; simp)]
        have hctx : combineContext (ctxsOf none none) = .ok [] := combineContext_nil
        rw [hctx]
        have hpre2 : preMergeTable none (some t) none
            = fillKmTotal (addMarker "_source_cf" t) := by
          unfold preMergeTable
          rw [mainsOf_cf t ht]
          show fillKmTotal (List.foldl outerJoin (addMarker "_source_cf" t) []) = _
          rw [List.foldl_nil]
        rw [hpre2, merge_pipeline_single _ t h1 h2 (by decide)]
      rw [hmerge]
      show Except.ok (stripMarkers (addMarker "_source_cf" t)) = _
      rw [stripMarkers_addMarker _ (by simp [markerCols]) t]
  · by_cases ht : t = []
    · subst ht
      rfl
    · have hmerge : merge_all none none (some (t, cc))
          = .ok (addMarker "_source_cot" t, cc) := by
        unfold merge_all
        rw [if_neg (by rw [mainsOf_cot t cc ht]; simp)]
        have hctx : combineContext (ctxsOf none (some (t, cc))) = .ok cc := by
          show combineContext ([] ++ [cc]) = .ok cc
          rw [List.nil_append]
          exact combineContext_single cc h4
        rw [hctx]
        have hpre3 : preMergeTable none none (some (t, cc))
            = fillKmTotal (addMarker "_source_cot" t) := by
          unfold preMergeTable
          rw [mainsOf_cot t cc ht]
          show fillKmTotal (List.foldl outerJoin (addMarker "_source_cot" t) []) = _
          rw [List.foldl_nil]
        rw [hpre3, merge_pipeline_single _ t h1 h2 (by decide)]
      rw [hmerge]
      show Except.ok (stripMarkers (addMarker "_source_cot" t)) = _
      rw [stripMarkers_addMarker _ (by simp [markerCols]) t]

theorem c7_single_source_equal_upto_markers_witness :
    (merge_all (some (c7Single, [("dias_uteis", some (Val.num 24))])) none none).map
        (fun out => stripMarkers out.1) = .ok (stripMarkers c7Single) ∧
    (merge_all none (some c7Single) none).map (fun out => stripMarkers out.1)
      = .ok (stripMarkers c7Single) ∧
    (merge_all none none (some (c7Single, []))).map (fun out => stripMarkers out.1)
      = .ok (stripMarkers c7Single) :=
  c7_single_source_equal_upto_markers c7Single
    [("dias_uteis", some (Val.num 24))] []
    (by with_unfolding_all decide) (by with_unfolding_all decide)
    (by with_unfolding_all decide) (by with_unfolding_all decide)

/-! ## Totality lemmas for the extractors -/

theorem foldlM_except_ok {α β : Type} (f : β → α → Except String β) :
    ∀ (l : List α) (init : β), (∀ b a, a ∈ l → ∃ c, f b a = .ok c) →
      ∃ out, l.foldlM f init = .ok out := by
  intro l
  induction l with
  | nil => intro init _; exact ⟨init, rfl⟩
  | cons a rest ih =>
    intro init h
    obtain ⟨c, hc⟩ := h init a (List.mem_cons_self _ _)
    obtain ⟨out, hout⟩ := ih c (fun b x hx => h b x (List.mem_cons_of_mem _ hx))
    refine ⟨out, ?_⟩
    rw [List.foldlM_cons, hc]
    exact hout

theorem foldlM_congr_mem {α β : Type} (l : List α)
    (f1 f2 : β → α → Except String β)
    (h : ∀ b a, a ∈ l → f1 b a = f2 b a) :
    ∀ init, l.foldlM f1 init = l.foldlM f2 init := by
  induction l with
  | nil => intro init; rfl
  | cons a rest ih =>
    intro init
    rw [List.foldlM_cons, List.foldlM_cons, h init a (List.mem_cons_self _ _)]
    cases f2 init a with
    | error e => rfl
    | ok b =>
      show rest.foldlM f1 b = rest.foldlM f2 b
      exact ih (fun b x hx => h b x (List.mem_cons_of_mem _ hx)) b

theorem bvDias_isOk (g : Grid) (h : 2 ≤ gridWidth g) : ∃ d, bvDias g = .ok d := by
  unfold bvDias
  cases (List.range g.length).find? (fun r => cellAt g r 0 = Cell.str "DIAS ÚTEIS:") with
  | none => exact ⟨none, rfl⟩
  | some r =>
    show ∃ d, (if gridWidth g < 2 then Except.error "IndexError"
        else Except.ok (pyIntFloat (cellAt g r 1))) = Except.ok d
    rw [if_neg (by omega)]
    exact ⟨_, rfl⟩

theorem bvRelNoHeader_isOk (g : Grid) (h : 2 ≤ gridWidth g) :
    ∃ rel, bvRelNoHeader g = .ok rel := by
  unfold bvRelNoHeader
  rw [if_pos h]
  exact ⟨_, rfl⟩

theorem bvRelPrimary_isOk (g : Grid) (h : 2 ≤ gridWidth g) :
    ∃ rel, bvRelPrimary g = .ok rel := by
  unfold bvRelPrimary
  cases labelIdx? (headerLabels g) "KM INICIAL" with
  | none => exact bvRelNoHeader_isOk g h
  | some idxI =>
    cases labelIdx? (headerLabels g) "KM FINAL" with
    | none => exact bvRelNoHeader_isOk g h
    | some idxF =>
      show ∃ rel, (if bvRelKmCols g ≠ [] then
          Except.ok (bvRelLoopA g idxI idxF (bvRelKmCols g))
        else if 2 ≤ gridWidth g then Except.ok (bvRelLoopB g)
        else if 1 ≤ g.length then Except.error "KeyError" else Except.ok [])
          = Except.ok rel
      by_cases hk : bvRelKmCols g ≠ []
      · rw [if_pos hk]
        exact ⟨_, rfl⟩
      · rw [if_neg hk, if_pos h]
        exact ⟨_, rfl⟩

theorem bvRel_isOk (g : Grid) (h : 2 ≤ gridWidth g) : ∃ rel, bvRel g = .ok rel := by
  unfold bvRel
  obtain ⟨rel, hrel⟩ := bvRelPrimary_isOk g h
  simp only [hrel]
  by_cases h0 : rel = []
  · simp only [if_pos h0]
    exact ⟨_, rfl⟩
  · simp only [if_neg h0]
    exact ⟨rel, rfl⟩

theorem read_base_valores_isOk (wb : Wb) (gv gr : Grid)
    (hv : findSheet wb "VIAGEM" = some gv) (h2v : 2 ≤ gridWidth gv)
    (hr : findSheet wb "RELAÇÃO % FRETE IDA" = some gr) (h2r : 2 ≤ gridWidth gr) :
    ∃ out, read_base_valores wb = .ok out := by
  unfold read_base_valores
  obtain ⟨d, hd⟩ := bvDias_isOk gv h2v
  obtain ⟨rel, hrel⟩ := bvRel_isOk gr h2r
  simp only [hv, hd, hr, hrel]
  exact ⟨_, rfl⟩

theorem rcfPrimarySheet_isOk (g : Grid) (v : String) (acc : List Row)
    (h : 21 ≤ gridWidth g ∨ gridWidth g < 12 ∨ g.length < 2) :
    ∃ rows, rcfPrimarySheet g v acc = .ok rows := by
  unfold rcfPrimarySheet
  by_cases hguard : g.length < 2 ∨ gridWidth g < 12
  · rw [if_pos hguard]
    exact ⟨acc, rfl⟩
  · rw [if_neg hguard]
    have hw : 21 ≤ gridWidth g := by
      rcases h with h | h | h
      · exact h
      · exact absurd (Or.inr h) hguard
      · exact absurd (Or.inl h) hguard
    apply foldlM_except_ok
    intro rows i _
    cases hk : kmTriple g (i + 1) with
    | none => exact ⟨rows, by simp only [hk]⟩
    | some trip =>
      obtain ⟨ki, kf, kt⟩ := trip
      refine ⟨rows ++ [mkCfRow v ki kf (kt) g (i + 1)], ?_⟩
      simp only [hk]
      rw [if_neg (by omega)]

theorem rcfPrimary_isOk (wb : Wb)
    (hwide : ∀ p ∈ wb, (SHEET_TO_VEHICLE.find? (fun q => q.1 = p.1)).isSome →
        21 ≤ gridWidth p.2 ∨ gridWidth p.2 < 12 ∨ p.2.length < 2) :
    ∃ rows, rcfPrimary wb = .ok rows := by
  unfold rcfPrimary
  apply foldlM_except_ok
  intro rows p hp
  cases hf : SHEET_TO_VEHICLE.find? (fun q => q.1 = p.1) with
  | none => exact ⟨rows, by simp only [hf]⟩
  | some q =>
    have hg := hwide p hp (by rw [hf]; rfl)
    obtain ⟨out, hout⟩ := rcfPrimarySheet_isOk p.2 q.2 rows hg
    refine ⟨out, ?_⟩
    simp only [hf]
    exact hout

theorem read_calculo_frete_isOk (wb : Wb) (gG : Grid)
    (hg : findSheet wb "FRETE PESO - GERAL" = some gG)
    (hwide : ∀ p ∈ wb, (SHEET_TO_VEHICLE.find? (fun q => q.1 = p.1)).isSome →
        21 ≤ gridWidth p.2 ∨ gridWidth p.2 < 12 ∨ p.2.length < 2) :
    ∃ t, read_calculo_frete wb = .ok t := by
  unfold read_calculo_frete
  obtain ⟨rows, hrows⟩ := rcfPrimary_isOk wb hwide
  simp only [hrows]
  by_cases hr0 : rows = []
  · simp only [if_pos hr0, hg]
    exact ⟨_, rfl⟩
  · simp only [if_neg hr0]
    exact ⟨rows, rfl⟩

/-- C5 (counterexample): a workbook that opens (it has a sheet) but lacks
the unconditionally-read `VIAGEM` sheet makes `read_base_valores` raise,
and one lacking `FRETE PESO - GERAL` when the primary layout yields no rows
makes `read_calculo_frete` raise — a missing expected *sheet* is fatal,
not a silently-absent value. -/
theorem c5_missing_sheet_raises :
    read_base_valores c5WbNoViagem = .error "ValueError: no sheet VIAGEM" ∧
    read_calculo_frete c5WbNoViagem
      = .error "ValueError: no sheet FRETE PESO - GERAL" :=
  ⟨by with_unfolding_all rfl, by with_unfolding_all rfl⟩

/-- C5 (amended): blank or unparseable labels and cells inside present
sheets never make the fixed-cost or computed-freight extractor raise — the
value becomes absent and processing continues — provided the workbook
carries its mandatory sheets (`VIAGEM`, `RELAÇÃO % FRETE IDA`,
`FRETE PESO - GERAL`) at least two columns wide and no per-vehicle sheet
falls in the 12-to-20-column range where `row.iloc[18]` escapes the
`try`. -/
theorem c5_soft_anomalies_recovered (wb : Wb) (gv gr gG : Grid)
    (hv : findSheet wb "VIAGEM" = some gv) (h2v : 2 ≤ gridWidth gv)
    (hr : findSheet wb "RELAÇÃO % FRETE IDA" = some gr) (h2r : 2 ≤ gridWidth gr)
    (hg : findSheet wb "FRETE PESO - GERAL" = some gG)
    (hwide : ∀ p ∈ wb, (SHEET_TO_VEHICLE.find? (fun q => q.1 = p.1)).isSome →
        21 ≤ gridWidth p.2 ∨ gridWidth p.2 < 12 ∨ p.2.length < 2) :
    (read_base_valores wb).isOk = true ∧ (read_calculo_frete wb).isOk = true := by
  obtain ⟨o1, h1⟩ := read_base_valores_isOk wb gv gr hv h2v hr h2r
  obtain ⟨o2, h2⟩ := read_calculo_frete_isOk wb gG hg hwide
  rw [h1, h2]
  exact ⟨rfl, rfl⟩

theorem c5_soft_anomalies_recovered_witness :
    (read_base_valores c5Wb).isOk = true ∧ (read_calculo_frete c5Wb).isOk = true :=
  c5_soft_anomalies_recovered c5Wb c5Viagem c5Rel c5Geral
    (by with_unfolding_all rfl) (by with_unfolding_all decide)
    (by with_unfolding_all rfl) (by with_unfolding_all decide)
    (by with_unfolding_all rfl) (by with_unfolding_all decide)

/-- Every alias target of the sheet-name table is canonical. -/
theorem sheetToVehicle_snd_canonical :
    ∀ q ∈ SHEET_TO_VEHICLE, q.2 ∈ CANONICAL_VEHICLES := by decide

theorem normalize_vehicle_mem (s v : String) (h : normalize_vehicle s = some v) :
    v ∈ CANONICAL_VEHICLES := by
  unfold normalize_vehicle at h
  split_ifs at h with hmem
  · cases h
    exact hmem
  · cases hf : SHEET_TO_VEHICLE.find? (fun p => p.1 = s.trim.toUpper) with
    | none => rw [hf] at h; simp at h
    | some pr =>
      rw [hf] at h
      simp only [Option.map_some', Option.some.injEq] at h
      have hpr : pr ∈ SHEET_TO_VEHICLE := List.mem_of_find?_eq_some hf
      exact h ▸ sheetToVehicle_snd_canonical pr hpr

/-- C8 (confirmed): whenever the consolidated-sheet fallback runs, every
emitted row's vehicle type is a normalizer output (hence canonical) —
column groups whose row-2 label fails to resolve are skipped silently —
and on a workbook with no per-vehicle sheet but a valid consolidated sheet
(`c8Wb`) the primary layout yields zero rows yet the extractor returns the
non-empty fallback table. -/
theorem c8_fallback_normalizes_and_nonempty :
    (∀ (g : Grid) (r : Row), r ∈ rcfFallback g → r.key.vt ∈ CANONICAL_VEHICLES) ∧
    rcfPrimary c8Wb = .ok [] ∧
    read_calculo_frete c8Wb = .ok c8Expected ∧
    c8Expected ≠ [] := by
  refine ⟨?_, by with_unfolding_all rfl, by with_unfolding_all rfl,
          by with_unfolding_all decide⟩
  intro g r h
  unfold rcfFallback at h
  split at h
  case isFalse => simp at h
  case isTrue =>
    rcases List.mem_flatMap.mp h with ⟨i, _, h2⟩
    cases hp1 : pyFloat (cellAt g (i + 4) 1) with
    | error e => simp only [hp1] at h2; simp at h2
    | ok oi =>
      cases hp2 : pyFloat (cellAt g (i + 4) 2) with
      | error e => simp only [hp1, hp2] at h2; simp at h2
      | ok of =>
        cases hp3 : pyFloat (cellAt g (i + 4) 3) with
        | error e => simp only [hp1, hp2, hp3] at h2; simp at h2
        | ok ot =>
          simp only [hp1, hp2, hp3] at h2
          rcases List.mem_filterMap.mp h2 with ⟨c, _, h3⟩
          cases hcell : cellAt g 2 (c + 1) with
          | empty => simp [hcell] at h3
          | num q => simp [hcell] at h3
          | str s =>
            simp only [hcell] at h3
            cases hn : normalize_vehicle s.trim with
            | none => simp [hn] at h3
            | some v =>
              simp only [hn, Option.some.injEq] at h3
              rw [← h3]
              exact normalize_vehicle_mem _ _ hn

theorem c8_fallback_normalizes_and_nonempty_witness :
    ({ key := ⟨"VAN - CARGA SECA", some 0, some 100⟩
       cells :=
         [("km_total", some (Val.num 101)),
          ("valor_dia_util_calculo", some (Val.num 10)),
          ("frete_peso_entrega", some (Val.num 10)),
          ("frete_peso_retorno", some (Val.num 11)),
          ("frete_peso_viagem", some (Val.num 12))] } : Row).key.vt
      ∈ CANONICAL_VEHICLES :=
  c8_fallback_normalizes_and_nonempty.1 c8Geral _ (by with_unfolding_all decide)

/-! ## C9: the quotation context scan window -/

theorem foldrMax_append (l1 l2 : List Nat) :
    (l1 ++ l2).foldr max 0 = max (l1.foldr max 0) (l2.foldr max 0) := by
  induction l1 with
  | nil => simp
  | cons a t ih => simp [ih, Nat.max_assoc]

theorem foldrMax_le (l : List Nat) (w : Nat) (h : ∀ x ∈ l, x ≤ w) :
    l.foldr max 0 ≤ w := by
  induction l with
  | nil => simp
  | cons a t ih =>
    simp only [List.foldr_cons]
    exact Nat.max_le.mpr ⟨h a (List.mem_cons_self _ _),
      ih (fun x hx => h x (List.mem_cons_of_mem _ hx))⟩

theorem gridWidth_append (g : Grid) (extra : List (List Cell))
    (hw : ∀ row ∈ extra, row.length ≤ gridWidth g) :
    gridWidth (g ++ extra) = gridWidth g := by
  unfold gridWidth
  rw [List.map_append, foldrMax_append]
  refine Nat.max_eq_left ?_
  refine foldrMax_le _ _ ?_
  intro x hx
  rcases List.mem_map.mp hx with ⟨row, hrow, rfl⟩
  exact hw row hrow

theorem cellAt_append (g : Grid) (extra : List (List Cell)) (r c : Nat)
    (hr : r < g.length) : cellAt (g ++ extra) r c = cellAt g r c := by
  unfold cellAt
  rw [List.get?_append hr]

theorem cotScanRow_append (g : Grid) (extra : List (List Cell)) (ctx : Ctx) (r : Nat)
    (hr : r < g.length)
    (hwidth : gridWidth (g ++ extra) = gridWidth g) :
    cotScanRow (g ++ extra) ctx r = cotScanRow g ctx r := by
  unfold cotScanRow
  rw [cellAt_append g extra r 0 hr, cellAt_append g extra r 1 hr,
      cellAt_append g extra r 2 hr, cellAt_append g extra r 3 hr, hwidth]
  have h1 : (r + 1 ≤ (g ++ extra).length) ↔ (r + 1 ≤ g.length) := by
    simp only [List.length_append]
    constructor
    · intro _; omega
    · intro _; omega
  simp only [h1]

/-- C9 (counterexample): the `Cliente:` label with value `"X"` at row
index 20 is outside `range(min(20, len(df_cot)))` and is never matched (the
context comes back empty), while the identical label at row index 19 is
found — label matching is *not* independent of the row position. -/
theorem c9_label_at_row_20_missed :
    cotContext c9Beyond = .ok [] ∧
    cotContext c9Inside = .ok [("cliente", some (Val.str "X"))] :=
  ⟨by with_unfolding_all rfl, by with_unfolding_all rfl⟩

/-- C9 (amended): the context fields are matched by their label cells at
whatever row the label occupies *within the first 20 rows* (rows appended
beyond row 19 never change the result), with route-km matched by the
`"Km"` substring; `c9Demo` shows all four match kinds landing at assorted
rows. -/
theorem c9_scan_window_first20 (g : Grid) (extra : List (List Cell))
    (hlen : 20 ≤ g.length) (hw : ∀ row ∈ extra, row.length ≤ gridWidth g) :
    cotContext (g ++ extra) = cotContext g ∧
    cotContext c9Demo = .ok
      [("numero_cotacao", some (Val.str "123")),
       ("data_cotacao", some (Val.str "2024-01-01")),
       ("cliente", some (Val.str "X")),
       ("km_rota", some (Val.num 100))] := by
  constructor
  · unfold cotContext
    have hmin : min 20 (g ++ extra).length = min 20 g.length := by
      simp only [List.length_append]
      omega
    rw [hmin]
    apply foldlM_congr_mem
    intro ctx r hrange
    have hr20 : r < min 20 g.length := List.mem_range.mp hrange
    exact cotScanRow_append g extra ctx r (by omega) (gridWidth_append g extra hw)
  · with_unfolding_all rfl

theorem c9_scan_window_first20_witness :
    cotContext (c9Inside ++ [[Cell.str "Origem:", Cell.str "SP"]])
        = cotContext c9Inside ∧
    cotContext c9Demo = .ok
      [("numero_cotacao", some (Val.str "123")),
       ("data_cotacao", some (Val.str "2024-01-01")),
       ("cliente", some (Val.str "X")),
       ("km_rota", some (Val.num 100))] :=
  c9_scan_window_first20 c9Inside [[Cell.str "Origem:", Cell.str "SP"]]
    (by with_unfolding_all decide) (by with_unfolding_all decide)

/-- C10 (confirmed): whenever the fixed-cost extractor succeeds, the
context record is exactly one non-null `dias_uteis` value; when the
`DIAS ÚTEIS:` row is absent, its neighbour unparseable, or the parsed
value zero, the value is the default 24, and otherwise it is the parsed
integer (`dias_uteis or 24`, line 31). -/
theorem c10_dias_uteis_never_null (wb : Wb) (t : Table) (c : Ctx)
    (gv : Grid) (d : Option Int)
    (h : read_base_valores wb = .ok (t, c))
    (hgv : findSheet wb "VIAGEM" = some gv)
    (hd : bvDias gv = .ok d) :
    c = [("dias_uteis", some (Val.num
      ((match d with
        | none => (24 : Int)
        | some v => if v = 0 then 24 else v) : Rat)))] := by
  unfold read_base_valores at h
  simp only [hgv, hd] at h
  cases hr : findSheet wb "RELAÇÃO % FRETE IDA" with
  | none => simp only [hr] at h; exact absurd h (by simp)
  | some gr =>
    simp only [hr] at h
    cases hrel : bvRel gr with
    | error e => simp only [hrel] at h; exact absurd h (by simp)
    | ok rel =>
      simp only [hrel, Except.ok.injEq, Prod.mk.injEq] at h
      rw [← h.2]
      cases d with
      | none => norm_num [pyOrInt]
      | some v =>
        by_cases hv : v = 0
        · simp [pyOrInt, hv]
        · simp [pyOrInt, hv]

theorem c10_dias_uteis_never_null_witness :
    ([("dias_uteis", some (Val.num 22))] : Ctx)
      = [("dias_uteis", some (Val.num
          ((match (some 22 : Option Int) with
            | none => (24 : Int)
            | some v => if v = 0 then 24 else v) : Rat)))] :=
  c10_dias_uteis_never_null c10Wb c10Main [("dias_uteis", some (Val.num 22))]
    [[Cell.str "junk"], [Cell.str "DIAS ÚTEIS:", Cell.num 22]] (some 22)
    (by with_unfolding_all rfl) (by with_unfolding_all rfl)
    (by with_unfolding_all rfl)

end GutologDash
